import Mathlib

/-!
Verification of the two scripts in FEASTorg/bread-infra:
`scripts/generate_kibot_index.py` (IndexRenderer) and
`scripts/inject_feast_assets.py` (AssetSyncer).

Python strings are modeled as lists of characters, Python functions as
Lean functions on that model, and the AssetSyncer's side effects as an
explicit trace of events produced by a pure interpretation of `main`
over an environment that fixes the outcomes of the external calls
(filesystem checks, the git subprocess, YAML parsing).
-/

/-- Model of a Python `str`: a list of characters. -/
abbrev PyStr := List Char

/-- Characters removed by Python `str.strip()` (the ASCII fragment,
which covers every string the scripts handle). -/
def isPySpace (c : Char) : Bool :=
  c = ' ' || c = '\t' || c = '\n' || c = '\r' || c = '\x0b' || c = '\x0c'

/-- Model of Python `str.strip()`: drop whitespace at both ends. -/
def pyStrip (s : PyStr) : PyStr :=
  ((s.dropWhile isPySpace).reverse.dropWhile isPySpace).reverse

/-- Model of Python `str.lower()` (ASCII case folding, which covers
every string the scripts handle). -/
def pyLower (s : PyStr) : PyStr :=
  s.map Char.toLower

/-- Worker for `replaceAll`, structurally recursive on a fuel counter so
that concrete instances compute by `rfl`/`decide`.  At each position,
if the (non-empty) pattern starts here, emit the replacement and resume
after the matched pattern; otherwise keep the character.  This is the
left-to-right non-overlapping semantics of Python `str.replace` for a
non-empty pattern (the scripts only ever replace non-empty tokens). -/
def replaceAllAux : Nat → PyStr → PyStr → PyStr → PyStr
  | 0, s, _, _ => s
  | _ + 1, [], _, _ => []
  | fuel + 1, c :: rest, pat, rep =>
    if !pat.isEmpty && pat.isPrefixOf (c :: rest) then
      rep ++ replaceAllAux fuel (List.drop pat.length (c :: rest)) pat rep
    else
      c :: replaceAllAux fuel rest pat rep

/-- Model of Python `s.replace(pat, rep)` for a non-empty `pat`.  Each
step of the worker consumes at least one character of `s`, so fuel
`s.length` always suffices. -/
def replaceAll (s pat rep : PyStr) : PyStr :=
  replaceAllAux s.length s pat rep

/-- Substring containment test: does `s` contain `pat` as a contiguous
substring? -/
def containsSub : PyStr → PyStr → Bool
  | [], pat => pat.isEmpty
  | c :: rest, pat => pat.isPrefixOf (c :: rest) || containsSub rest pat

namespace GenerateKibotIndex

/-- The literal token `$PROJECT_NAME` from the template. -/
def tokPROJECT : PyStr := "$PROJECT_NAME".data

/-- The literal token `$LINKS` from the template. -/
def tokLINKS : PyStr := "$LINKS".data

/-- The literal token `$DATE` from the template. -/
def tokDATE : PyStr := "$DATE".data

/-- The list comprehension of `render_template`, with the mutable `seen`
set made explicit.  An entry `a` survives exactly when `a.strip()` is
non-empty and `a.lower()` is not in `seen`; a surviving entry adds
`a.lower()` (the lowered, untrimmed entry) to `seen` and contributes
`a.strip()` to the output. -/
def uniqArtifacts : List PyStr → List PyStr → List PyStr
  | [], _ => []
  | a :: rest, seen =>
    if !(pyStrip a).isEmpty && !seen.contains (pyLower a) then
      pyStrip a :: uniqArtifacts rest (pyLower a :: seen)
    else
      uniqArtifacts rest seen

/-- One Markdown link line of the links block. -/
def linkLine (a : PyStr) : PyStr :=
  "- [".data ++ a ++ "](./".data ++ a ++ ")".data

/-- The `links_block` of `render_template`: link lines joined by
newlines. -/
def links_block (uniq : List PyStr) : PyStr :=
  List.intercalate "\n".data (uniq.map linkLine)

/-- Model of `render_template(template, project, artifacts, timestamp)`:
deduplicate the artifacts, build the links block, then apply the three
`str.replace` calls in source order. -/
def render_template (template project : PyStr) (artifacts : List PyStr)
    (timestamp : PyStr) : PyStr :=
  let uniq := uniqArtifacts artifacts []
  let links := links_block uniq
  replaceAll (replaceAll (replaceAll template tokPROJECT project) tokLINKS links)
    tokDATE timestamp

/-- Specification-level first-occurrence deduplication by a key
function: keep each element whose key has not occurred earlier in the
list.  Stated from the spec's words for comparison with the
implementation's `uniqArtifacts`. -/
def dedupByKey (key : PyStr → PyStr) : List PyStr → List PyStr
  | [] => []
  | a :: rest => a :: dedupByKey key (rest.filter (fun b => !(key b == key a)))
termination_by l => l.length
decreasing_by
  simp only [List.length_cons]
  exact Nat.lt_succ_of_le (List.length_filter_le _ _)

end GenerateKibotIndex

/-- When the pattern does not occur in the string, `replaceAllAux`
leaves the string unchanged, for any fuel. -/
theorem replaceAllAux_id (fuel : Nat) (pat rep : PyStr) :
    ∀ s : PyStr, containsSub s pat = false → replaceAllAux fuel s pat rep = s := by
  induction fuel with
  | zero => intro s _; rfl
  | succ n ih =>
    intro s h
    cases s with
    | nil => rfl
    | cons c rest =>
      simp only [containsSub, Bool.or_eq_false_iff] at h
      simp only [replaceAllAux, h.1, Bool.and_false, Bool.false_eq_true, if_false,
        List.cons.injEq, true_and]
      exact ih rest h.2

/-- Python `str.replace` is the identity when the pattern does not
occur in the string. -/
theorem replaceAll_id (s pat rep : PyStr) (h : containsSub s pat = false) :
    replaceAll s pat rep = s :=
  replaceAllAux_id s.length pat rep s h

namespace GenerateKibotIndex

/-- Invariant of the deduplicating comprehension: running it with an
arbitrary `seen` set equals filtering out blank entries and entries
whose lowered form is already in `seen`, then first-occurrence
deduplication keyed on the lowered untrimmed entry, then trimming the
survivors. -/
theorem uniqArtifacts_spec (l : List PyStr) :
    ∀ seen : List PyStr,
      uniqArtifacts l seen =
        (dedupByKey pyLower (l.filter
          (fun a => !(pyStrip a).isEmpty && !seen.contains (pyLower a)))).map pyStrip := by
  induction l with
  | nil => intro seen; simp [uniqArtifacts, dedupByKey]
  | cons a rest ih =>
    intro seen
    rw [uniqArtifacts, List.filter_cons]
    cases hc : (!(pyStrip a).isEmpty && !seen.contains (pyLower a)) with
    | false =>
      rw [if_neg (by simp), if_neg (by simp)]
      exact ih seen
    | true =>
      rw [if_pos rfl, if_pos rfl]
      rw [dedupByKey, List.map_cons, ih (pyLower a :: seen)]
      suffices h : rest.filter
            (fun b => !(pyStrip b).isEmpty && !((pyLower a :: seen).contains (pyLower b))) =
          (rest.filter (fun b => !(pyStrip b).isEmpty && !seen.contains (pyLower b))).filter
            (fun b => !(pyLower b == pyLower a)) by
        rw [h]
      rw [List.filter_filter]
      refine List.filter_congr ?_
      intro b _
      rw [List.contains_cons, Bool.not_or, Bool.and_left_comm]

/-- The deduplication performed by `render_template`: keep entries with
a non-blank trimmed form, deduplicate by the lowered UNTRIMMED entry
(first occurrence wins), and emit trimmed forms. -/
theorem uniqArtifacts_eq_dedup (l : List PyStr) :
    uniqArtifacts l [] =
      (dedupByKey pyLower (l.filter (fun a => !(pyStrip a).isEmpty))).map pyStrip := by
  rw [uniqArtifacts_spec l []]
  suffices h : l.filter (fun a => !(pyStrip a).isEmpty && !([] : List PyStr).contains (pyLower a)) =
      l.filter (fun a => !(pyStrip a).isEmpty) by
    rw [h]
  refine List.filter_congr ?_
  intro b _
  simp

/-- C1 counterexample: the entries `"x"` and `" x"` have equal trimmed
forms, yet rendering yields two links, not one, because deduplication
keys on the lowered UNTRIMMED entry.  This refutes the claim that two
entries whose trimmed forms are equal yield only one link. -/
theorem c1_counterexample_trimmed_duplicates :
    pyStrip "x".data = pyStrip " x".data ∧
    render_template tokLINKS "p".data ["x".data, " x".data] "d".data =
      "- [x](./x)\n- [x](./x)".data := by
  decide

/-- C1 (amended): `render_template` filters the artifacts to entries
with a non-blank trimmed form and deduplicates them keyed on the
lowered untrimmed entry, first occurrence winning, in first-seen
order, emitting one Markdown link per surviving trimmed entry; in
particular rendering Foo, foo, BAR yields exactly the two links Foo
then BAR.  Entries whose trimmed forms coincide but whose untrimmed
forms differ are NOT merged. -/
theorem c1_amended_dedup_links :
    (∀ artifacts : List PyStr,
      uniqArtifacts artifacts [] =
        (dedupByKey pyLower (artifacts.filter (fun a => !(pyStrip a).isEmpty))).map pyStrip) ∧
    render_template tokLINKS "p".data ["Foo".data, "foo".data, "BAR".data] "d".data =
      "- [Foo](./Foo)\n- [BAR](./BAR)".data :=
  ⟨uniqArtifacts_eq_dedup, by decide⟩

/-- C2: `render_template` substitutes exactly the three literal tokens
and leaves all other text verbatim without error: a template
containing none of the three tokens is returned unchanged; a template
containing all three has each replaced by its value; and in the
template `$PROJECT_NAME-extra` only the token prefix is substituted,
leaving `-extra` untouched. -/
theorem c2_exact_token_substitution (t p ts : PyStr) (arts : List PyStr)
    (hP : containsSub t tokPROJECT = false)
    (hL : containsSub t tokLINKS = false)
    (hD : containsSub t tokDATE = false) :
    render_template t p arts ts = t ∧
    render_template "$PROJECT_NAME $LINKS $DATE".data "P".data ["x".data] "T".data =
      "P - [x](./x) T".data ∧
    render_template "$PROJECT_NAME-extra".data "proj".data [] "2024".data =
      "proj-extra".data := by
  refine ⟨?_, by decide, by decide⟩
  show replaceAll (replaceAll (replaceAll t tokPROJECT p) tokLINKS _) tokDATE ts = t
  rw [replaceAll_id t tokPROJECT p hP, replaceAll_id t tokLINKS _ hL,
    replaceAll_id t tokDATE ts hD]

/-- Witness for C2 at a concrete template containing an unmatched
placeholder-like token. -/
theorem c2_exact_token_substitution_witness :
    render_template "hello $WORLD y".data "p".data ["a".data] "t".data =
      "hello $WORLD y".data ∧
    render_template "$PROJECT_NAME $LINKS $DATE".data "P".data ["x".data] "T".data =
      "P - [x](./x) T".data ∧
    render_template "$PROJECT_NAME-extra".data "proj".data [] "2024".data =
      "proj-extra".data :=
  c2_exact_token_substitution "hello $WORLD y".data "p".data "t".data ["a".data]
    (by decide) (by decide) (by decide)

/-- C8: the three substitutions are applied sequentially, project name
first, then links, then date, so token text occurring inside an
earlier-substituted value is itself replaced: a project value
containing the links token ends up holding the links block, and an
artifact name containing the date token ends up holding the
timestamp. -/
theorem c8_sequential_substitution :
    render_template tokPROJECT "A$LINKS".data ["x".data] "d".data = "A- [x](./x)".data ∧
    render_template tokLINKS "p".data ["$DATE".data] "T".data = "- [T](./T)".data := by
  decide

end GenerateKibotIndex

namespace InjectFeastAssets

/-- Result of `yaml.safe_load` on the config file, restricted to the
document shapes the script distinguishes: a mapping (whose values, for
`color_scheme`, are strings, so Python `str()` of a looked-up value is
the identity and the absent-key fallback is the empty string), or a
non-mapping document (null from an empty file, a bare scalar, or a
sequence), on which `config.get` raises `AttributeError`. -/
inductive YDoc
  | null
  | scalar (s : PyStr)
  | seq (items : List PyStr)
  | map (entries : List (PyStr × PyStr))
deriving DecidableEq

/-- An exception raised while opening or parsing the config file:
`yaml.YAMLError` or `OSError`.  Both are caught by
`load_color_scheme`. -/
inductive ReadErr
  | yamlError
  | osError
deriving DecidableEq

/-- Result of running `load_color_scheme`: either the function returns
a value (`none` models Python `None`), or an `AttributeError` escapes
uncaught. -/
inductive LoadResult
  | ret (v : Option PyStr)
  | attrError
deriving DecidableEq

/-- Python `dict.get(key, fallback)` on the entries of a parsed
mapping; later duplicate keys override earlier ones, as in a dict
built by PyYAML. -/
def dictGet (entries : List (PyStr × PyStr)) (key fallback : PyStr) : PyStr :=
  match entries.reverse.find? (fun e => e.1 == key) with
  | some e => e.2
  | none => fallback

/-- The sentinel `WANTED_COLOR_SCHEME = "feast"` from the script. -/
def WANTED_COLOR_SCHEME : PyStr := "feast".data

/-- The constant `RETRY_ATTEMPTS = 3` from the script. -/
def RETRY_ATTEMPTS : Nat := 3

/-- Model of `load_color_scheme`: `None` if the file is absent;
`None` if reading or parsing raises `yaml.YAMLError` or `OSError`
(both caught); otherwise `str(config.get("color_scheme", ""))
.strip().lower()` — which raises an uncaught `AttributeError` when the
parsed document is not a mapping. -/
def load_color_scheme (configExists : Bool) (readResult : Except ReadErr YDoc) :
    LoadResult :=
  if configExists = false then .ret none
  else
    match readResult with
    | .error _ => .ret none
    | .ok (.map entries) =>
        .ret (some (pyLower (pyStrip (dictGet entries "color_scheme".data "".data))))
    | .ok _ => .attrError

/-- Observable side effects of the AssetSyncer, in program order.
Informational logging other than the skip diagnostic and the
per-folder verification verdicts is not modeled. -/
inductive Event
  | printSkip
  | rmtreeTemp (ok : Bool)
  | cloneAttempt
  | sleepDelay
  | removeDest (name : PyStr)
  | copyTree (name : PyStr)
  | verifyFail (name : PyStr)
  | verifyOk (name : PyStr)
deriving DecidableEq

/-- Model of `safe_rmtree`: attempts the removal (recording the
attempt and its outcome) and returns whether it succeeded; a raised
`PermissionError`/`OSError` is caught and reported as `false`. -/
def safe_rmtree (ok : Bool) : Bool × List Event :=
  (ok, [Event.rmtreeTemp ok])

/-- The retry loop of `clone_theme_repo`, iterating
`attempt = retries - remaining, …, retries`: one clone invocation per
iteration, returning `true` on the first success; after a failure, a
delay sleep occurs only when `attempt < retries`. -/
def cloneGo (cloneOk : Nat → Bool) (retries : Nat) : Nat → Bool × List Event
  | 0 => (false, [])
  | remaining + 1 =>
    let attempt := retries - remaining
    if cloneOk attempt then (true, [Event.cloneAttempt])
    else if attempt < retries then
      let r := cloneGo cloneOk retries remaining
      (r.1, Event.cloneAttempt :: Event.sleepDelay :: r.2)
    else
      let r := cloneGo cloneOk retries remaining
      (r.1, Event.cloneAttempt :: r.2)

/-- Model of `clone_theme_repo(retries)`: run the attempts
`1, …, retries`, where `cloneOk n` tells whether the n-th `git clone`
subprocess exits without error.  Returns overall success and the
trace of clone invocations and delay sleeps. -/
def clone_theme_repo (cloneOk : Nat → Bool) (retries : Nat := RETRY_ATTEMPTS) :
    Bool × List Event :=
  cloneGo cloneOk retries retries

/-- The loop body of `copy_theme_assets` over the given folder names:
remove a pre-existing destination, then copy the source subtree in. -/
def copyFolders (destExists : PyStr → Bool) : List PyStr → List Event
  | [] => []
  | f :: rest =>
    (if destExists f then [Event.removeDest f] else []) ++
      (Event.copyTree f :: copyFolders destExists rest)

/-- Model of `copy_theme_assets`: for each of `_sass` and `_includes`,
remove the destination if it exists, then copy the cloned source
folder into it. -/
def copy_theme_assets (destExists : PyStr → Bool) : List Event :=
  copyFolders destExists ["_sass".data, "_includes".data]

/-- The loop of `verify_assets` over the given folder names:
`nonEmpty f` tells whether destination folder `f` exists and has at
least one entry; a failing folder flips the running success flag and
logs a per-folder failure. -/
def verifyFolders (nonEmpty : PyStr → Bool) : List PyStr → Bool × List Event
  | [] => (true, [])
  | f :: rest =>
    let r := verifyFolders nonEmpty rest
    if nonEmpty f then (r.1, Event.verifyOk f :: r.2)
    else (false, Event.verifyFail f :: r.2)

/-- Model of `verify_assets`: both `docs/_sass` and `docs/_includes`
must exist and be non-empty. -/
def verify_assets (nonEmpty : PyStr → Bool) : Bool × List Event :=
  verifyFolders nonEmpty ["_sass".data, "_includes".data]

/-- Environment fixing the outcomes of the external calls `main`
performs: presence and parse result of `docs/_config.yml`, presence of
the stale temp dir and whether its removal succeeds, per-attempt git
clone outcomes, pre-existence of the destination folders, whether the
post-copy temp removal succeeds, and the post-copy existence and
non-emptiness of the destination folders. -/
structure Env where
  configExists : Bool
  readResult : Except ReadErr YDoc
  tempExists : Bool
  staleRmtreeOk : Bool
  cloneOk : Nat → Bool
  destExists : PyStr → Bool
  postRmtreeOk : Bool
  destNonEmpty : PyStr → Bool

/-- Process outcome of the AssetSyncer: a clean exit with a status
code and the trace of effects, or termination by an uncaught
exception (a traceback). -/
inductive Outcome
  | exits (code : Nat) (events : List Event)
  | uncaught (events : List Event)
deriving DecidableEq

/-- Model of `main`: exit 1 if the config file is missing; skip
(exit 0) unless the loaded scheme equals the sentinel; remove a stale
temp dir, aborting (exit 1) if that removal fails; clone with retries,
aborting (exit 1) if all attempts fail; copy the two asset folders;
remove the temp dir (outcome ignored); verify, exiting 1 on
verification failure and 0 otherwise. -/
def main (env : Env) : Outcome :=
  if env.configExists = false then .exits 1 []
  else
    match load_color_scheme env.configExists env.readResult with
    | .attrError => .uncaught []
    | .ret v =>
      if v ≠ some WANTED_COLOR_SCHEME then .exits 0 [Event.printSkip]
      else
        let stale := if env.tempExists then safe_rmtree env.staleRmtreeOk else (true, [])
        if stale.1 = false then .exits 1 stale.2
        else
          let cl := clone_theme_repo env.cloneOk RETRY_ATTEMPTS
          if cl.1 = false then .exits 1 (stale.2 ++ cl.2)
          else
            let cp := copy_theme_assets env.destExists
            let clean := safe_rmtree env.postRmtreeOk
            let vr := verify_assets env.destNonEmpty
            let evs := stale.2 ++ cl.2 ++ cp ++ clean.2 ++ vr.2
            if vr.1 = false then .exits 1 evs else .exits 0 evs

/-- C4: with retries set to 3, a clone operation that fails on the
first two attempts and succeeds on the third makes `clone_theme_repo`
return success with exactly three clone invocations and exactly two
delay waits, one between each consecutive pair of attempts and none
after the final attempt. -/
theorem c4_clone_fail_fail_succeed_trace (f : Nat → Bool) (h1 : f 1 = false)
    (h2 : f 2 = false) (h3 : f 3 = true) :
    clone_theme_repo f 3 =
      (true, [Event.cloneAttempt, Event.sleepDelay, Event.cloneAttempt,
        Event.sleepDelay, Event.cloneAttempt]) ∧
    [Event.cloneAttempt, Event.sleepDelay, Event.cloneAttempt,
        Event.sleepDelay, Event.cloneAttempt].count Event.cloneAttempt = 3 ∧
    [Event.cloneAttempt, Event.sleepDelay, Event.cloneAttempt,
        Event.sleepDelay, Event.cloneAttempt].count Event.sleepDelay = 2 := by
  refine ⟨?_, by decide, by decide⟩
  simp [clone_theme_repo, cloneGo, h1, h2, h3]

/-- Witness for C4: the clone succeeds exactly on the third attempt. -/
theorem c4_clone_fail_fail_succeed_trace_witness :
    clone_theme_repo (fun n => n == 3) 3 =
      (true, [Event.cloneAttempt, Event.sleepDelay, Event.cloneAttempt,
        Event.sleepDelay, Event.cloneAttempt]) ∧
    [Event.cloneAttempt, Event.sleepDelay, Event.cloneAttempt,
        Event.sleepDelay, Event.cloneAttempt].count Event.cloneAttempt = 3 ∧
    [Event.cloneAttempt, Event.sleepDelay, Event.cloneAttempt,
        Event.sleepDelay, Event.cloneAttempt].count Event.sleepDelay = 2 :=
  c4_clone_fail_fail_succeed_trace (fun n => n == 3) rfl rfl rfl

/-- Helper: when the first three clone attempts all fail,
`clone_theme_repo` with the default 3 retries fails with three clone
invocations and two delay waits. -/
theorem clone_all_fail3 (f : Nat → Bool) (h1 : f 1 = false) (h2 : f 2 = false)
    (h3 : f 3 = false) :
    clone_theme_repo f RETRY_ATTEMPTS =
      (false, [Event.cloneAttempt, Event.sleepDelay, Event.cloneAttempt,
        Event.sleepDelay, Event.cloneAttempt]) := by
  simp [clone_theme_repo, RETRY_ATTEMPTS, cloneGo, h1, h2, h3]

/-- C3: when the config file exists and parses to a mapping whose
`color_scheme` value, trimmed and lowered, differs from the sentinel
`feast` (the absent key falling back to the empty string), `main`
prints the skip message and exits 0, performing no clone, copy, or
filesystem mutation of any kind (the effect trace is exactly the skip
diagnostic). -/
theorem c3_skip_on_non_feast_scheme (env : Env) (entries : List (PyStr × PyStr))
    (hc : env.configExists = true)
    (hr : env.readResult = .ok (.map entries))
    (hs : pyLower (pyStrip (dictGet entries "color_scheme".data "".data)) ≠
      WANTED_COLOR_SCHEME) :
    main env = .exits 0 [Event.printSkip] := by
  simp [main, hc, hr, load_color_scheme, hs]

/-- Witness for C3: a config with `color_scheme: minimal`. -/
theorem c3_skip_on_non_feast_scheme_witness :
    main ⟨true, .ok (.map [("color_scheme".data, "minimal".data)]), false, true,
      fun _ => false, fun _ => false, true, fun _ => false⟩ =
      .exits 0 [Event.printSkip] :=
  c3_skip_on_non_feast_scheme _ [("color_scheme".data, "minimal".data)] rfl rfl
    (by decide)

/-- C9: when the config file exists but reading or parsing it raises
`yaml.YAMLError` or `OSError`, `load_color_scheme` returns the `None`
sentinel rather than throwing, and `main` takes the skip path: exit 0
with no filesystem mutation. -/
theorem c9_parse_error_skips (env : Env) (e : ReadErr)
    (hc : env.configExists = true)
    (hr : env.readResult = .error e) :
    load_color_scheme true (.error e) = .ret none ∧
    main env = .exits 0 [Event.printSkip] := by
  refine ⟨rfl, ?_⟩
  simp [main, hc, hr, load_color_scheme]

/-- Witness for C9: a config file raising a YAML parse error. -/
theorem c9_parse_error_skips_witness :
    load_color_scheme true (.error .yamlError) = .ret none ∧
    main ⟨true, .error .yamlError, false, true, fun _ => false, fun _ => false,
      true, fun _ => false⟩ = .exits 0 [Event.printSkip] :=
  c9_parse_error_skips _ .yamlError rfl rfl

/-- C10: when the config file exists and its YAML parses successfully
but not to a mapping (null from an empty file, a bare scalar, or a
sequence), `load_color_scheme` raises an uncaught `AttributeError`
(only `yaml.YAMLError` and `OSError` are caught), so `main` terminates
with a traceback instead of returning the `None` sentinel or
skipping. -/
theorem c10_non_mapping_uncaught (env : Env) (d : YDoc)
    (hc : env.configExists = true)
    (hr : env.readResult = .ok d)
    (hm : ∀ entries, d ≠ YDoc.map entries) :
    load_color_scheme true (.ok d) = .attrError ∧ main env = .uncaught [] := by
  have hload : load_color_scheme true (.ok d) = .attrError := by
    cases d with
    | map entries => exact absurd rfl (hm entries)
    | null => rfl
    | scalar s => rfl
    | seq items => rfl
  refine ⟨hload, ?_⟩
  simp [main, hc, hr, hload]

/-- Witness for C10: an empty config file, parsing to null. -/
theorem c10_non_mapping_uncaught_witness :
    load_color_scheme true (.ok .null) = .attrError ∧
    main ⟨true, .ok .null, false, true, fun _ => false, fun _ => false,
      true, fun _ => false⟩ = .uncaught [] :=
  c10_non_mapping_uncaught _ .null rfl rfl (fun _ h => nomatch h)

/-- C7: when the scheme is the sentinel, the stale temp directory
exists, and its removal fails, `main` aborts with exit status 1 having
attempted only the removal — the trace contains no clone invocation,
so no network activity ever occurs after the failed cleanup. -/
theorem c7_stale_cleanup_failure_aborts (env : Env)
    (hc : env.configExists = true)
    (hl : load_color_scheme env.configExists env.readResult =
      .ret (some WANTED_COLOR_SCHEME))
    (ht : env.tempExists = true)
    (hrm : env.staleRmtreeOk = false) :
    main env = .exits 1 [Event.rmtreeTemp false] ∧
    Event.cloneAttempt ∉ [Event.rmtreeTemp false] := by
  rw [hc] at hl
  refine ⟨?_, by decide⟩
  simp [main, hc, hl, ht, hrm, safe_rmtree]

/-- Witness for C7: scheme `feast`, stale temp present, removal
failing. -/
theorem c7_stale_cleanup_failure_aborts_witness :
    main ⟨true, .ok (.map [("color_scheme".data, "feast".data)]), true, false,
      fun _ => false, fun _ => false, true, fun _ => false⟩ =
      .exits 1 [Event.rmtreeTemp false] ∧
    Event.cloneAttempt ∉ [Event.rmtreeTemp false] :=
  c7_stale_cleanup_failure_aborts _ rfl (by decide) rfl rfl

/-- C5: when the scheme is the sentinel, any stale temp removal
succeeds, and every clone attempt fails, `main` exits with status 1
and its effect trace contains no destination removal and no copy — the
destination folders are left unmodified. -/
theorem c5_all_clone_attempts_fail (env : Env)
    (hc : env.configExists = true)
    (hl : load_color_scheme env.configExists env.readResult =
      .ret (some WANTED_COLOR_SCHEME))
    (hstale : env.tempExists = true → env.staleRmtreeOk = true)
    (hfail : ∀ n, env.cloneOk n = false) :
    ∃ evs, main env = .exits 1 evs ∧
      ∀ f, Event.removeDest f ∉ evs ∧ Event.copyTree f ∉ evs := by
  rw [hc] at hl
  have hcl := clone_all_fail3 env.cloneOk (hfail 1) (hfail 2) (hfail 3)
  cases ht : env.tempExists with
  | false =>
    refine ⟨[Event.cloneAttempt, Event.sleepDelay, Event.cloneAttempt,
      Event.sleepDelay, Event.cloneAttempt], ?_, ?_⟩
    · simp [main, hc, hl, ht, hcl]
    · intro f; simp
  | true =>
    refine ⟨Event.rmtreeTemp true :: [Event.cloneAttempt, Event.sleepDelay,
      Event.cloneAttempt, Event.sleepDelay, Event.cloneAttempt], ?_, ?_⟩
    · simp [main, hc, hl, ht, hstale ht, hcl, safe_rmtree]
    · intro f; simp

/-- Witness for C5: scheme `feast`, no stale temp, all clone attempts
failing. -/
theorem c5_all_clone_attempts_fail_witness :
    ∃ evs, main ⟨true, .ok (.map [("color_scheme".data, "feast".data)]), false,
        true, fun _ => false, fun _ => false, true, fun _ => false⟩ =
        .exits 1 evs ∧
      ∀ f, Event.removeDest f ∉ evs ∧ Event.copyTree f ∉ evs :=
  c5_all_clone_attempts_fail _ rfl (by decide) (fun h => nomatch h) (fun _ => rfl)

/-- Helper: a folder among the two verified ones that is missing or
empty makes `verify_assets` report overall failure and log a failure
verdict for that specific folder. -/
theorem verify_fail_mem (nonEmpty : PyStr → Bool) (f : PyStr)
    (hf : f = "_sass".data ∨ f = "_includes".data) (h : nonEmpty f = false) :
    (verify_assets nonEmpty).1 = false ∧
    Event.verifyFail f ∈ (verify_assets nonEmpty).2 := by
  rcases hf with hf | hf <;> subst hf
  · cases h2 : nonEmpty "_includes".data <;> simp [verify_assets, verifyFolders, h, h2]
  · cases h2 : nonEmpty "_sass".data <;> simp [verify_assets, verifyFolders, h, h2]

/-- C6: on a run that reaches the copy step (sentinel scheme, stale
cleanup fine, clone succeeded), if after the copy one of the two
destination folders is missing or empty, verification logs a failure
verdict for that specific folder, `main` exits with status 1, and the
temp clone directory has nevertheless been removed before the program
exits (the removal succeeds and appears in the trace). -/
theorem c6_verify_failure_after_copy (env : Env) (f : PyStr)
    (hc : env.configExists = true)
    (hl : load_color_scheme env.configExists env.readResult =
      .ret (some WANTED_COLOR_SCHEME))
    (hstale : env.tempExists = true → env.staleRmtreeOk = true)
    (hclone : (clone_theme_repo env.cloneOk RETRY_ATTEMPTS).1 = true)
    (hf : f = "_sass".data ∨ f = "_includes".data)
    (hempty : env.destNonEmpty f = false)
    (hpost : env.postRmtreeOk = true) :
    ∃ evs, main env = .exits 1 evs ∧
      Event.verifyFail f ∈ evs ∧ Event.rmtreeTemp true ∈ evs := by
  rw [hc] at hl
  obtain ⟨hv1, hv2⟩ := verify_fail_mem env.destNonEmpty f hf hempty
  cases ht : env.tempExists with
  | false =>
    refine ⟨(clone_theme_repo env.cloneOk RETRY_ATTEMPTS).2 ++
      copy_theme_assets env.destExists ++ [Event.rmtreeTemp true] ++
      (verify_assets env.destNonEmpty).2, ?_, ?_, ?_⟩
    · simp [main, hc, hl, ht, hclone, hpost, safe_rmtree, hv1]
    · simp [hv2]
    · simp
  | true =>
    refine ⟨[Event.rmtreeTemp true] ++ (clone_theme_repo env.cloneOk RETRY_ATTEMPTS).2 ++
      copy_theme_assets env.destExists ++ [Event.rmtreeTemp true] ++
      (verify_assets env.destNonEmpty).2, ?_, ?_, ?_⟩
    · simp [main, hc, hl, ht, hstale ht, hclone, hpost, safe_rmtree, hv1]
    · simp [hv2]
    · simp

/-- Witness for C6: scheme `feast`, clone succeeding first try,
`docs/_sass` empty after the copy. -/
theorem c6_verify_failure_after_copy_witness :
    ∃ evs, main ⟨true, .ok (.map [("color_scheme".data, "feast".data)]), false,
        true, fun _ => true, fun _ => false, true, fun _ => false⟩ =
        .exits 1 evs ∧
      Event.verifyFail "_sass".data ∈ evs ∧ Event.rmtreeTemp true ∈ evs :=
  c6_verify_failure_after_copy _ "_sass".data rfl (by decide) (fun h => nomatch h)
    (by decide) (Or.inl rfl) rfl rfl

end InjectFeastAssets
